import Mathlib

/-!
Verification of the continuous-growth simulation core of the
data_analytics_FEFU repository (src/generator/scheduler.py,
src/generator/generator.py, src/database/repository.py).

Python float arithmetic is modelled exactly: every Python float literal in
the source is a rational number, so rational (or real, where the source
uses transcendental functions such as math.log10 and fractional powers)
arithmetic is used.  Integer counts read from the database are modelled as
naturals; random draws are modelled as explicit parameters bounded by the
interval the source draws them from.
-/

/-- Python int(x): truncation toward zero, modelled on rationals. -/
def pyint (x : ℚ) : ℤ :=
  if 0 ≤ x then ⌊x⌋ else -⌊-x⌋

/-- MarketSimulator.get_seasonal_multiplier: fixed per-month table with
default 1.0 (scheduler.py lines 32-39). -/
def get_seasonal_multiplier (month : ℤ) : ℚ :=
  if month = 1 then 1.15 else if month = 2 then 0.95
  else if month = 3 then 1.05 else if month = 4 then 1.00
  else if month = 5 then 0.98 else if month = 6 then 0.90
  else if month = 7 then 0.85 else if month = 8 then 0.92
  else if month = 9 then 1.10 else if month = 10 then 1.20
  else if month = 11 then 1.25 else if month = 12 then 1.30
  else 1.0

/-- MarketSimulator.get_weekday_multiplier: 1.25 on weekends (5, 6),
0.85 on Monday (0), 1.0 otherwise (scheduler.py lines 41-48). -/
def get_weekday_multiplier (weekday : ℤ) : ℚ :=
  if weekday = 5 ∨ weekday = 6 then 1.25
  else if weekday = 0 then 0.85
  else 1.0

/-- The bass diffusion part of EconomicSimulator.calculate_daily_user_growth
(scheduler.py lines 92-100): innovation_effect + imitation_effect. -/
noncomputable def bass_growth (current_users : ℕ) : ℝ :=
  0.0000005 * (300000000 - (current_users : ℝ)) +
    0.002 * ((current_users : ℝ) / 300000000) * (300000000 - (current_users : ℝ))

/-- The games attraction term of calculate_daily_user_growth
(scheduler.py lines 102-107). -/
noncomputable def games_attraction (current_games : ℕ) : ℝ :=
  if current_games < 50000 then
    max ((current_games : ℝ) * (0.1 * (1 - (current_games : ℝ) / 50000))) 550
  else
    (current_games : ℝ) * 0.01

/-- The network effect term of calculate_daily_user_growth
(scheduler.py lines 109-114), using math.log10 and a fractional power. -/
noncomputable def network_effect (current_users : ℕ) : ℝ :=
  if 1000 < current_users then
    min 2.5 (1 + Real.logb 10 (max 1 ((current_users : ℝ) ^ (1.1 : ℝ) / 10 ^ 5)) * 0.3)
  else
    1.0

/-- EconomicSimulator.calculate_daily_user_growth (scheduler.py lines
83-127).  The uniform(0.6, 1.4) draw is the parameter r. -/
noncomputable def calculate_daily_user_growth
    (current_users current_games : ℕ) (month : ℤ) (r : ℝ) : ℝ :=
  min ((bass_growth current_users + games_attraction current_games) *
        network_effect current_users * (get_seasonal_multiplier month : ℝ) * r)
      ((current_users : ℝ) * 0.05)

/-- The audience factor of calculate_daily_dev_growth
(scheduler.py lines 136-140). -/
noncomputable def audience_factor (current_users : ℕ) : ℝ :=
  if 10000 < current_users then
    Real.logb 10 (max 1 ((current_users : ℝ) / 10000)) * 1.5 + 1
  else 1

/-- The competition factor of calculate_daily_dev_growth
(scheduler.py lines 142-145). -/
noncomputable def competition_factor (current_devs : ℕ) : ℝ :=
  if 5000 < current_devs then 5000 / (current_devs : ℝ) else 1.0

/-- EconomicSimulator.calculate_daily_dev_growth (scheduler.py lines
129-152).  The gauss draw is the parameter g; the source returns
max(0, gauss(p, sqrt p)) when the base probability p is positive. -/
noncomputable def calculate_daily_dev_growth
    (current_devs current_users : ℕ) (g : ℝ) : ℝ :=
  if 0 < 0.2 * audience_factor current_users * competition_factor current_devs then
    max 0 g
  else 0

/-- The demand factor of calculate_daily_game_growth
(scheduler.py line 163). -/
noncomputable def demand_factor (current_users : ℕ) : ℝ :=
  min ((current_users : ℝ) ^ (0.1 : ℝ)) 10

/-- The uniqueness factor of calculate_daily_game_growth
(scheduler.py lines 165-173). -/
noncomputable def uniqueness_factor (current_games : ℕ) : ℝ :=
  if current_games < 1000 then 1.0
  else if current_games < 10000 then 0.8
  else if current_games < 50000 then 0.55
  else 0.3

/-- EconomicSimulator.calculate_daily_game_growth (scheduler.py lines
154-181).  The uniform(0.5, 1.5) trend draw is t, the gauss draw is g. -/
noncomputable def calculate_daily_game_growth
    (active_devs current_games current_users : ℕ) (t g : ℝ) : ℝ :=
  if 0 < (active_devs : ℝ) * demand_factor current_users * uniqueness_factor current_games * t then
    max 0 g
  else 0

/-- The activity rate computed in ContinuousGenerator.calculate_daily_growth
(scheduler.py lines 256-263): clamp of the product into the interval
from 0.25 to 0.8. -/
def activity_rate (base_activity seasonal_mult weekday_mult random_variation : ℚ) : ℚ :=
  min (max (base_activity * seasonal_mult * weekday_mult * random_variation) 0.25) 0.8

/-- ContinuousGenerator active user count (scheduler.py line 265):
int(current_users * activity_rate). -/
def active_users_cnt (current_users : ℕ) (rate : ℚ) : ℤ :=
  pyint ((current_users : ℚ) * rate)

/-- The user accumulator drain, ContinuousGenerator.generate_users_batch
(scheduler.py lines 288-303): if the carry new_users is at least 5 the
batch size is int(new_users // 5) and the source then runs new_users %= 1,
keeping only the fractional part of the carry.  Returns the emitted batch
size and the new carry. -/
def generate_users_batch (new_users : ℚ) : ℤ × ℚ :=
  if 5 ≤ new_users then (⌊new_users / 5⌋, Int.fract new_users)
  else (0, new_users)

/-- The developer accumulator drain, ContinuousGenerator.generate_developers_batch
(scheduler.py lines 341-356): threshold 1, batch size int(new_devs // 1),
then new_devs %= 1. -/
def generate_developers_batch (new_devs : ℚ) : ℤ × ℚ :=
  if 1 ≤ new_devs then (⌊new_devs / 1⌋, Int.fract new_devs)
  else (0, new_devs)

/-- The game accumulator drain, ContinuousGenerator.generate_games_batch
(scheduler.py lines 358-376): threshold 1, batch size int(new_games // 1),
then new_games %= 1. -/
def generate_games_batch (new_games : ℚ) : ℤ × ℚ :=
  if 1 ≤ new_games then (⌊new_games / 1⌋, Int.fract new_games)
  else (0, new_games)

/-- An event on an accumulator: accumulate a delta, or drain. -/
inductive AccEvent
  | acc (delta : ℚ)
  | drain
deriving DecidableEq

/-- Run a sequence of events on the user accumulator, tracking the carry
and the total of emitted batch sizes.  An accumulate event models a
calculate_daily_growth tick adding its delta to new_users
(scheduler.py line 270); a drain event models generate_users_batch. -/
def run_users : ℚ × ℤ → List AccEvent → ℚ × ℤ
  | s, [] => s
  | (c, e), AccEvent.acc d :: rest => run_users (c + d, e) rest
  | (c, e), AccEvent.drain :: rest =>
      run_users ((generate_users_batch c).2, e + (generate_users_batch c).1) rest

/-- Run a sequence of events on the game accumulator (threshold 1),
tracking the carry and the total of emitted batch sizes. -/
def run_games : ℚ × ℤ → List AccEvent → ℚ × ℤ
  | s, [] => s
  | (c, e), AccEvent.acc d :: rest => run_games (c + d, e) rest
  | (c, e), AccEvent.drain :: rest =>
      run_games ((generate_games_batch c).2, e + (generate_games_batch c).1) rest

/-- Sum of the deltas of the accumulate events of a sequence. -/
def sum_deltas : List AccEvent → ℚ
  | [] => 0
  | AccEvent.acc d :: rest => d + sum_deltas rest
  | AccEvent.drain :: rest => sum_deltas rest

/-- TimeSimulator.get_current_sim_day (scheduler.py lines 60-64):
int of elapsed real seconds divided by 60.  The wall clock read is t,
the construction instant is real_start, both in seconds. -/
def get_current_sim_day (real_start t : ℚ) : ℤ :=
  pyint ((t - real_start) / 60)

/-- TimeSimulator.get_simulated_date (scheduler.py lines 66-69):
sim_start_date plus the current sim day, dates modelled as day numbers. -/
def get_simulated_date (sim_start_date : ℤ) (real_start t : ℚ) : ℤ :=
  sim_start_date + get_current_sim_day real_start t

/-- TimeSimulator.get_simulated_date of the older variant
(sheduler.py lines 77-81): sim_start_date plus a fractional day count,
timedelta taking the unrounded minute count. -/
def get_simulated_date_frac (sim_start_date : ℚ) (real_start t : ℚ) : ℚ :=
  sim_start_date + (t - real_start) / 60

/-- TimeSimulator.get_simulated_datetime (scheduler.py lines 71-77):
the simulated date with a random hour from 9 to 18 and random minute and
second.  Datetimes are modelled as rational day counts; sim_date is the
day number and the time of day is the fraction of a day. -/
def get_simulated_datetime (sim_date : ℤ) (hour minute second : ℕ) : ℚ :=
  (sim_date : ℚ) + ((hour * 3600 + minute * 60 + second : ℕ) : ℚ) / 86400

/-- The border date of ContinuousGenerator.delete_old_users
(scheduler.py line 334): the simulated datetime minus 730 days. -/
def prune_border (sim_date : ℤ) (hour minute second : ℕ) : ℚ :=
  get_simulated_datetime sim_date hour minute second - 730

/-- UserRepository.delete_old_users (repository.py lines 141-152):
DELETE FROM users WHERE last_active < border_date, returning the removed
row count.  The table is a list of pairs of user id and last_active. -/
def delete_old_users (border_date : ℚ) (users : List (ℕ × ℚ)) :
    List (ℕ × ℚ) × ℕ :=
  (users.filter fun u => decide (¬ u.2 < border_date),
   (users.filter fun u => decide (u.2 < border_date)).length)

/-- DeveloperRepository.get_random_developer_id (repository.py lines
230-235): a random row of the developers table, or none when the table is
empty.  The random draw is the index k. -/
def get_random_developer_id (dev_ids : List ℕ) (k : ℕ) : Option ℕ :=
  dev_ids.get? (k % dev_ids.length)

/-- The developer id assigned by DataGenerator.create_game when it is
called without an explicit developer (generator.py lines 447-466): the
random developer from the database if one exists, otherwise the fallback
developer_id_counter - 1, or 0 when the counter is 0. -/
def create_game_developer_id (random_dev : Option ℕ) (developer_id_counter : ℕ) : ℕ :=
  match random_dev with
  | some d => d
  | none => if 0 < developer_id_counter then developer_id_counter - 1 else 0

/-- ContinuousGenerator.generate_games_batch together with the developer
assignment done by create_game for each created game (scheduler.py lines
358-376 and generator.py lines 447-466).  Returns the list of developer
ids assigned to the created games and the new carry; draws gives the
random developer index used for each game. -/
def generate_games_batch_devs (new_games : ℚ) (dev_ids : List ℕ)
    (developer_id_counter : ℕ) (draws : ℕ → ℕ) : List ℕ × ℚ :=
  if 1 ≤ new_games then
    ((List.range ⌊new_games / 1⌋.toNat).map fun i =>
       create_game_developer_id (get_random_developer_id dev_ids (draws i))
         developer_id_counter,
     Int.fract new_games)
  else ([], new_games)

/-- The game accumulation step of ContinuousGenerator.calculate_daily_growth
(scheduler.py line 286): new_games += min(game_growth, dev_count / 175). -/
def accumulate_games (new_games game_growth : ℚ) (dev_count : ℕ) : ℚ :=
  new_games + min game_growth ((dev_count : ℚ) / 175)

/-- UserRepository.update_user_active (repository.py lines 127-139): run
UPDATE users SET last_active WHERE user_id and return true, or return
false when the query raises (modelled by the raises flag).  The update
matches zero rows when no user has the given id; the function does not
inspect the matched row count. -/
def update_user_active (raises : Bool) (users : List (ℕ × ℚ))
    (user_id : ℕ) (last_active : ℚ) : List (ℕ × ℚ) × Bool :=
  if raises then (users, false)
  else (users.map fun u => if u.1 = user_id then (u.1, last_active) else u, true)

/-- The new_users increment of one ContinuousGenerator.calculate_daily_growth
tick (scheduler.py lines 250-274) as a function of the full calendar
context of the tick.  The tick computes the weekday multiplier
(line 259) but the increment delegates to calculate_daily_user_growth
with only current_users, current_games and month, so the weekday binder
is not consumed. -/
noncomputable def tick_user_delta (current_users current_games : ℕ)
    (month weekday : ℤ) (r : ℝ) : ℝ :=
  calculate_daily_user_growth current_users current_games month r

/-- One user drain never increases the accounted quantity: five times the
emitted batch size plus the new carry is at most the old carry. -/
theorem generate_users_batch_le (c : ℚ) :
    ((generate_users_batch c).1 : ℚ) * 5 + (generate_users_batch c).2 ≤ c := by
  unfold generate_users_batch
  split_ifs with h
  · simp only [Int.fract]
    have h1 : (⌊c / 5⌋ : ℚ) * 5 ≤ c := by
      have := Int.floor_le (c / 5)
      linarith
    have h2 : ⌊c / 5⌋ * 5 ≤ ⌊c⌋ := by
      have : ((⌊c / 5⌋ * 5 : ℤ) : ℚ) ≤ c := by push_cast; linarith
      exact Int.le_floor.mpr this
    have h2q : ((⌊c / 5⌋ : ℚ)) * 5 ≤ (⌊c⌋ : ℚ) := by exact_mod_cast h2
    linarith
  · simp

/-- One game drain conserves the accounted quantity exactly: the emitted
batch size (threshold 1) plus the new carry equals the old carry. -/
theorem generate_games_batch_eq (c : ℚ) :
    ((generate_games_batch c).1 : ℚ) + (generate_games_batch c).2 = c := by
  unfold generate_games_batch
  split_ifs with h
  · simp only [Int.fract, div_one]
    ring
  · simp

/-- Accounting bound for a run of the user accumulator from any start. -/
theorem run_users_account (evs : List AccEvent) :
    ∀ c : ℚ, ∀ e : ℤ,
      ((run_users (c, e) evs).2 : ℚ) * 5 + (run_users (c, e) evs).1 ≤
        (e : ℚ) * 5 + c + sum_deltas evs := by
  induction evs with
  | nil => intro c e; simp [run_users, sum_deltas]
  | cons ev rest ih =>
      intro c e
      cases ev with
      | acc d =>
          have := ih (c + d) e
          simp only [run_users, sum_deltas]
          linarith
      | drain =>
          have hih := ih (generate_users_batch c).2 (e + (generate_users_batch c).1)
          have hb := generate_users_batch_le c
          simp only [run_users, sum_deltas]
          push_cast at hih ⊢
          linarith

/-- Exact accounting for a run of the game accumulator from any start. -/
theorem run_games_account (evs : List AccEvent) :
    ∀ c : ℚ, ∀ e : ℤ,
      ((run_games (c, e) evs).2 : ℚ) + (run_games (c, e) evs).1 =
        (e : ℚ) + c + sum_deltas evs := by
  induction evs with
  | nil => intro c e; simp [run_games, sum_deltas]
  | cons ev rest ih =>
      intro c e
      cases ev with
      | acc d =>
          have := ih (c + d) e
          simp only [run_games, sum_deltas]
          linarith
      | drain =>
          have hih := ih (generate_games_batch c).2 (e + (generate_games_batch c).1)
          have hb := generate_games_batch_eq c
          simp only [run_games, sum_deltas]
          push_cast at hih ⊢
          linarith

/-- C1 counterexample: a single accumulated delta of 7 followed by one user
drain emits one batch and leaves carry 0, because the source runs
new_users %= 1 rather than new_users %= 5; the accounted total
1 * 5 + 0 = 5 differs from the accumulated 7 by 2, far beyond any
floating-point epsilon, and the final carry 0 is not 7 mod 5 = 2. -/
theorem c1_counterexample :
    generate_users_batch 7 = (1, 0) ∧
    ¬ ((run_users (0, 0) [AccEvent.acc 7, AccEvent.drain]).2 : ℚ) * 5 +
        (run_users (0, 0) [AccEvent.acc 7, AccEvent.drain]).1 =
        sum_deltas [AccEvent.acc 7, AccEvent.drain] := by
  have hb : generate_users_batch 7 = (1, 0) := by
    norm_num [generate_users_batch, Int.fract]
  constructor
  · exact hb
  · simp only [run_users, sum_deltas]
    norm_num [hb]

/-- C1 amended: the drains keep only the fractional part of the carry
(carry mod 1).  For the game accumulator, whose emission threshold is 1,
conservation holds exactly: the sum of emitted batch sizes times 1 plus
the final carry equals the sum of accumulated deltas.  For the user
accumulator, whose threshold is 5, the whole-number remainder below the
threshold is dropped at each drain, so the sum of emitted batch sizes
times 5 plus the final carry is only at most the sum of accumulated
deltas. -/
theorem c1_amended (evs : List AccEvent) :
    ((run_users (0, 0) evs).2 : ℚ) * 5 + (run_users (0, 0) evs).1 ≤ sum_deltas evs ∧
    ((run_games (0, 0) evs).2 : ℚ) * 1 + (run_games (0, 0) evs).1 = sum_deltas evs := by
  constructor
  · have := run_users_account evs 0 0
    simpa using this
  · have := run_games_account evs 0 0
    rw [mul_one]
    simpa using this

/-- C9: with emission threshold 1 for games, carry 0.7 and an accumulated
delta of 0.4, the carry becomes 1.1 and the drain emits batch size 1 and
leaves carry 0.1 (exact rational arithmetic; the source computes the same
values up to floating-point rounding). -/
theorem c9_games_drain_scenario :
    (0.7 + 0.4 : ℚ) = 1.1 ∧ generate_games_batch (0.7 + 0.4) = (1, 0.1) := by
  constructor
  · norm_num
  · norm_num [generate_games_batch, Int.fract]

/-- C5: on every growth tick the clamped activity rate lies in the closed
interval from 0.25 to 0.8 for any base activity, seasonal and weekday
multipliers and random variation, and the active user count is the floor
of rate times total users, which is at most the total user count. -/
theorem c5_activity_bounds (b s w v : ℚ) (u : ℕ) :
    0.25 ≤ activity_rate b s w v ∧ activity_rate b s w v ≤ 0.8 ∧
    active_users_cnt u (activity_rate b s w v) =
      ⌊(u : ℚ) * activity_rate b s w v⌋ ∧
    active_users_cnt u (activity_rate b s w v) ≤ (u : ℤ) := by
  have h1 : 0.25 ≤ activity_rate b s w v :=
    le_min (le_max_right _ _) (by norm_num)
  have h2 : activity_rate b s w v ≤ 0.8 := min_le_right _ _
  have hx : (0 : ℚ) ≤ (u : ℚ) * activity_rate b s w v :=
    mul_nonneg (Nat.cast_nonneg u) (by linarith)
  have h3 : active_users_cnt u (activity_rate b s w v) =
      ⌊(u : ℚ) * activity_rate b s w v⌋ := by
    unfold active_users_cnt pyint
    rw [if_pos hx]
  refine ⟨h1, h2, h3, ?_⟩
  rw [h3]
  have : (u : ℚ) * activity_rate b s w v ≤ (u : ℚ) := by
    calc (u : ℚ) * activity_rate b s w v ≤ (u : ℚ) * 0.8 :=
          mul_le_mul_of_nonneg_left h2 (Nat.cast_nonneg u)
      _ ≤ (u : ℚ) * 1 := by
          have := Nat.cast_nonneg (α := ℚ) u
          nlinarith
      _ = (u : ℚ) := mul_one _
  calc ⌊(u : ℚ) * activity_rate b s w v⌋ ≤ ⌊(u : ℚ)⌋ := Int.floor_le_floor this
    _ = (u : ℤ) := Int.floor_natCast u

/-- C6: with the construction instant and the simulation start date fixed,
the simulated date is monotone in the wall-clock read, in both the
scheduler.py variant (whole days via int truncation) and the sheduler.py
variant (fractional days); the simulated date never moves backward. -/
theorem c6_monotonic_clock (sim_start : ℤ) (sim_start_q real_start t1 t2 : ℚ)
    (h0 : real_start ≤ t1) (h : t1 ≤ t2) :
    get_simulated_date sim_start real_start t1 ≤
      get_simulated_date sim_start real_start t2 ∧
    get_simulated_date_frac sim_start_q real_start t1 ≤
      get_simulated_date_frac sim_start_q real_start t2 := by
  have hd : (t1 - real_start) / 60 ≤ (t2 - real_start) / 60 :=
    (div_le_div_iff_of_pos_right (show (0:ℚ) < 60 by norm_num)).mpr (sub_le_sub_right h _)
  have h01 : (0:ℚ) ≤ (t1 - real_start) / 60 :=
    div_nonneg (by linarith) (by norm_num)
  have h02 : (0:ℚ) ≤ (t2 - real_start) / 60 := le_trans h01 hd
  constructor
  · unfold get_simulated_date get_current_sim_day pyint
    rw [if_pos h01, if_pos h02]
    exact add_le_add_left (Int.floor_le_floor hd) _
  · unfold get_simulated_date_frac
    linarith

/-- Witness for the monotonic clock theorem at the concrete reads 0 and 60
with start instant 0. -/
theorem c6_witness :
    (0 : ℚ) ≤ 0 ∧ (0 : ℚ) ≤ 60 ∧
    (get_simulated_date 0 0 0 ≤ get_simulated_date 0 0 60 ∧
     get_simulated_date_frac 0 0 0 ≤ get_simulated_date_frac 0 0 60) :=
  ⟨le_refl 0, by norm_num,
   c6_monotonic_clock 0 0 0 0 60 (le_refl 0) (by norm_num)⟩

/-- C7 counterexample: the prune border is derived from
get_simulated_datetime, whose time of day is drawn at random from
business hours, so two prune calls in immediate succession on the same
simulated day can use different borders.  With simulated day 0, a first
draw at 09:00:00 and a second at 18:00:00 (both valid draws), and two
users last active at day -730 and at day -729.5, the first prune removes
one user and the second prune also removes one user, not zero. -/
theorem c7_counterexample :
    (delete_old_users (prune_border 0 9 0 0) [(1, (-730 : ℚ)), (2, -729.5)]).2 = 1 ∧
    (delete_old_users (prune_border 0 18 0 0)
        (delete_old_users (prune_border 0 9 0 0) [(1, (-730 : ℚ)), (2, -729.5)]).1).2 = 1 := by
  constructor
  · norm_num [delete_old_users, prune_border, get_simulated_datetime]
  · norm_num [delete_old_users, prune_border, get_simulated_datetime]

/-- C7 amended: pruning is idempotent when the second call uses a border
date no later than the first (in particular the same border): every user
surviving the first prune has last_active at least the first border, so
the second prune matches no row and removes zero users.  As coded, the
second border can exceed the first because the border is derived from a
randomized time of day, and then the second call can remove users. -/
theorem c7_amended (b1 b2 : ℚ) (users : List (ℕ × ℚ)) (h : b2 ≤ b1) :
    (delete_old_users b2 (delete_old_users b1 users).1).2 = 0 := by
  unfold delete_old_users
  simp only [List.length_eq_zero, List.filter_eq_nil_iff]
  intro a ha
  simp only [List.mem_filter, decide_eq_true_eq] at ha
  simp only [decide_eq_true_eq]
  intro hlt
  exact ha.2 (lt_of_lt_of_le hlt h)

/-- Witness for the amended pruning theorem with equal borders and an
empty user table. -/
theorem c7_witness :
    (0 : ℚ) ≤ 0 ∧
    (delete_old_users 0 (delete_old_users 0 ([] : List (ℕ × ℚ))).1).2 = 0 :=
  ⟨le_refl 0, c7_amended 0 0 [] (le_refl 0)⟩

/-- C10: update_user_active returns true exactly when the UPDATE query
does not raise, with no check of the matched row count: when no user has
the given id the update matches zero rows, leaves the table unchanged and
still returns true; it returns false only when the query raises. -/
theorem c10_update_active_no_existence_check (raises : Bool)
    (users : List (ℕ × ℚ)) (user_id : ℕ) (last_active : ℚ)
    (h : user_id ∉ users.map Prod.fst) :
    ((update_user_active raises users user_id last_active).2 = true ↔ raises = false) ∧
    update_user_active false users user_id last_active = (users, true) := by
  constructor
  · cases raises <;> simp [update_user_active]
  · unfold update_user_active
    rw [if_neg (by simp)]
    refine Prod.ext ?_ rfl
    show users.map _ = users
    have hcongr : users.map (fun u => if u.1 = user_id then (u.1, last_active) else u) =
        users.map id := by
      apply List.map_congr_left
      intro u hu
      simp only [id]
      rw [if_neg]
      intro heq
      exact h (heq ▸ List.mem_map_of_mem Prod.fst hu)
    rw [hcongr, List.map_id]

/-- Witness for the update_user_active theorem: a raising call and a
non-raising call against a one-user table for a missing user id 2. -/
theorem c10_witness :
    ((update_user_active true [(1, (0:ℚ))] 2 5).2 = true ↔ true = false) ∧
    update_user_active false [(1, (0:ℚ))] 2 5 = ([(1, (0:ℚ))], true) :=
  c10_update_active_no_existence_check true [(1, (0:ℚ))] 2 5 (by decide)

/-- C4 counterexample: generate_games_batch does not check the developer
count.  With no developers in the database, a game accumulator carry of
1.5 and a developer id counter of 0, the batch has size 1, not 0, and the
single created game is assigned the fabricated developer id 0. -/
theorem c4_counterexample :
    (generate_games_batch_devs (3/2) [] 0 (fun _ => 0)).1 = [0] ∧
    (generate_games_batch_devs (3/2) [] 0 (fun _ => 0)).1.length ≠ 0 := by
  have hb : (generate_games_batch_devs (3/2) [] 0 (fun _ => 0)).1 = [0] := by
    norm_num [generate_games_batch_devs, create_game_developer_id,
      get_random_developer_id, List.range_succ]
  exact ⟨hb, by rw [hb]; simp⟩

/-- C4 amended: game emission with zero developers is prevented only by
the accumulation cap, not by an emission-time check.  The accumulation
step adds min(game_growth, dev_count / 175), which is zero whenever the
developer count is zero and the growth delta is non-negative, so a run
that always sees zero developers keeps the carry at zero and every
emission returns an empty batch.  If a carry of at least 1 were present
with zero developers, emission would proceed and assign the fallback
developer id (see the counterexample). -/
theorem c4_amended (gs : List ℚ) (h : ∀ g ∈ gs, 0 ≤ g) :
    gs.foldl (fun c g => accumulate_games c g 0) 0 = 0 ∧
    generate_games_batch_devs (gs.foldl (fun c g => accumulate_games c g 0) 0)
      [] 0 (fun _ => 0) = ([], 0) := by
  have hfold : gs.foldl (fun c g => accumulate_games c g 0) 0 = 0 := by
    induction gs with
    | nil => rfl
    | cons g rest ih =>
        have hg : (0:ℚ) ≤ g := h g (List.mem_cons_self g rest)
        have hstep : accumulate_games 0 g 0 = 0 := by
          unfold accumulate_games
          rw [Nat.cast_zero, zero_div, min_eq_right hg, add_zero]
        rw [List.foldl_cons, hstep]
        exact ih fun x hx => h x (List.mem_cons_of_mem g hx)
  refine ⟨hfold, ?_⟩
  rw [hfold]
  unfold generate_games_batch_devs
  rw [if_neg (by norm_num)]

/-- Witness for the amended zero-developer theorem on the growth sequence
consisting of the single delta 1. -/
theorem c4_witness :
    (0 : ℚ) ≤ 1 ∧
    ([(1:ℚ)].foldl (fun c g => accumulate_games c g 0) 0 = 0 ∧
     generate_games_batch_devs ([(1:ℚ)].foldl (fun c g => accumulate_games c g 0) 0)
       [] 0 (fun _ => 0) = ([], 0)) :=
  ⟨by norm_num,
   c4_amended [1] (by intro g hg; rw [List.mem_singleton] at hg; rw [hg]; norm_num)⟩

set_option maxHeartbeats 1000000 in
/-- The seasonal multiplier table is positive for every month. -/
theorem get_seasonal_multiplier_pos (month : ℤ) :
    0 < get_seasonal_multiplier month := by
  unfold get_seasonal_multiplier
  split_ifs <;> norm_num

/-- The network effect multiplier is at least 1. -/
theorem one_le_network_effect (u : ℕ) : 1 ≤ network_effect u := by
  unfold network_effect
  split_ifs with h
  · have hl : 0 ≤ Real.logb 10 (max 1 ((u : ℝ) ^ (1.1 : ℝ) / 10 ^ 5)) :=
      Real.logb_nonneg (by norm_num) (le_max_left _ _)
    exact le_min (by norm_num) (by nlinarith)
  · norm_num

/-- The bass diffusion term is non-negative while the user count does not
exceed the market potential of 300000000. -/
theorem bass_growth_nonneg (u : ℕ) (h : u ≤ 300000000) : 0 ≤ bass_growth u := by
  unfold bass_growth
  have hu : (u : ℝ) ≤ 300000000 := by exact_mod_cast h
  have hu0 : (0 : ℝ) ≤ (u : ℝ) := Nat.cast_nonneg u
  have h1 : (0 : ℝ) ≤ 300000000 - (u : ℝ) := by linarith
  have h2 : (0 : ℝ) ≤ (u : ℝ) / 300000000 := by positivity
  nlinarith

/-- The games attraction term is non-negative for every catalog size. -/
theorem games_attraction_nonneg (g : ℕ) : 0 ≤ games_attraction g := by
  unfold games_attraction
  split_ifs with h
  · exact le_trans (by norm_num) (le_max_right _ _)
  · positivity

/-- User growth is non-negative whenever the user count does not exceed
the market potential and the jitter draw is in its interval. -/
theorem user_growth_nonneg (u g : ℕ) (m : ℤ) (r : ℝ)
    (hu : u ≤ 300000000) (hr : 0.6 ≤ r) :
    0 ≤ calculate_daily_user_growth u g m r := by
  unfold calculate_daily_user_growth
  have hs : (0 : ℝ) ≤ (get_seasonal_multiplier m : ℝ) := by
    exact_mod_cast le_of_lt (get_seasonal_multiplier_pos m)
  have hn : (0 : ℝ) ≤ network_effect u :=
    le_trans zero_le_one (one_le_network_effect u)
  apply le_min
  · apply mul_nonneg (mul_nonneg (mul_nonneg ?_ hn) hs) (by linarith)
    exact add_nonneg (bass_growth_nonneg u hu) (games_attraction_nonneg g)
  · positivity

/-- Developer growth is non-negative for every snapshot and every draw. -/
theorem dev_growth_nonneg (d u : ℕ) (g : ℝ) :
    0 ≤ calculate_daily_dev_growth d u g := by
  unfold calculate_daily_dev_growth
  split_ifs with h
  · exact le_max_left 0 g
  · exact le_refl 0

/-- Game growth is non-negative for every snapshot and every draw. -/
theorem game_growth_nonneg (ad cg cu : ℕ) (t g : ℝ) :
    0 ≤ calculate_daily_game_growth ad cg cu t g := by
  unfold calculate_daily_game_growth
  split_ifs with h
  · exact le_max_left 0 g
  · exact le_refl 0

/-- C2 counterexample: with 400000000 users (a non-negative count above
the Bass market potential of 300000000), zero games, month 1 and jitter
draw 1 (a valid uniform(0.6, 1.4) value), the user growth function
returns a negative value: both Bass terms are negative there and dwarf
the games attraction floor of 550. -/
theorem c2_counterexample : calculate_daily_user_growth 400000000 0 1 1 < 0 := by
  have hb : bass_growth 400000000 + games_attraction 0 < 0 := by
    unfold bass_growth games_attraction
    norm_num
  have hn : (0 : ℝ) < network_effect 400000000 :=
    lt_of_lt_of_le zero_lt_one (one_le_network_effect 400000000)
  have hs : (0 : ℝ) < (get_seasonal_multiplier 1 : ℝ) := by
    exact_mod_cast get_seasonal_multiplier_pos 1
  unfold calculate_daily_user_growth
  apply lt_of_le_of_lt (min_le_left _ _)
  rw [mul_one]
  exact mul_neg_of_neg_of_pos (mul_neg_of_neg_of_pos hb hn) hs

/-- C2 amended: the three growth functions return non-negative values for
every snapshot with non-negative counts and every draw of the random
source, provided the total user count does not exceed the Bass market
potential of 300000000; above that ceiling the user growth function can
return a negative value (see the counterexample). -/
theorem c2_amended (u g d cu ad cg cu2 : ℕ) (m : ℤ) (r t gd gg : ℝ)
    (hu : u ≤ 300000000) (hr1 : 0.6 ≤ r) (hr2 : r ≤ 1.4) :
    0 ≤ calculate_daily_user_growth u g m r ∧
    0 ≤ calculate_daily_dev_growth d cu gd ∧
    0 ≤ calculate_daily_game_growth ad cg cu2 t gg :=
  ⟨user_growth_nonneg u g m r hu hr1, dev_growth_nonneg d cu gd,
   game_growth_nonneg ad cg cu2 t gg⟩

/-- Witness for the amended non-negativity theorem at a concrete
snapshot with all counts zero and all draws equal to 1. -/
theorem c2_witness :
    (0 : ℕ) ≤ 300000000 ∧ (0.6 : ℝ) ≤ 1 ∧ (1 : ℝ) ≤ 1.4 ∧
    (0 ≤ calculate_daily_user_growth 0 0 1 1 ∧
     0 ≤ calculate_daily_dev_growth 0 0 1 ∧
     0 ≤ calculate_daily_game_growth 0 0 0 1 1) :=
  ⟨by norm_num, by norm_num, by norm_num,
   c2_amended 0 0 0 0 0 0 0 1 1 1 1 1 (by norm_num) (by norm_num) (by norm_num)⟩

/-- C3: the user growth delta never exceeds 5 percent of the current
total user count, for every snapshot, month and draw: the source takes
the minimum of the inflow and current_users * 0.05. -/
theorem c3_user_growth_cap (current_users current_games : ℕ) (month : ℤ) (r : ℝ) :
    calculate_daily_user_growth current_users current_games month r ≤
      0.05 * (current_users : ℝ) := by
  unfold calculate_daily_user_growth
  rw [mul_comm (0.05 : ℝ)]
  exact min_le_right _ _

/-- With 10000 users the network value (10000 to the power 1.1, divided
by 10 to the power 5) is at most 1, so the network effect multiplier is
exactly 1. -/
theorem network_effect_10000 : network_effect 10000 = 1 := by
  unfold network_effect
  rw [if_pos (by norm_num : (1000:ℕ) < 10000)]
  have h4 : ((10000:ℕ):ℝ) ^ (1.1:ℝ) = (10:ℝ) ^ (4.4:ℝ) := by
    have hbase : ((10000:ℕ):ℝ) = (10:ℝ) ^ ((4:ℕ):ℝ) := by
      rw [Real.rpow_natCast]; norm_num
    rw [hbase, ← Real.rpow_mul (by norm_num : (0:ℝ) ≤ 10)]
    norm_num
  have h5 : ((10:ℝ) ^ (5:ℕ) : ℝ) = (10:ℝ) ^ ((5:ℕ):ℝ) := (Real.rpow_natCast 10 5).symm
  have hle : ((10000:ℕ):ℝ) ^ (1.1:ℝ) / 10 ^ 5 ≤ 1 := by
    rw [div_le_one (by positivity), h4, h5,
      Real.rpow_le_rpow_left_iff (by norm_num : (1:ℝ) < 10)]
    norm_num
  rw [max_eq_left hle, Real.logb_one]
  norm_num

/-- At the snapshot of 10000 users, 100 games, month 1 and jitter draw 1,
the inflow exceeds the 5 percent cap, so the user growth delta is exactly
the cap 10000 * 0.05 = 500. -/
theorem user_growth_value_10000 :
    calculate_daily_user_growth 10000 100 1 1 = 500 := by
  have hb : bass_growth 10000 + games_attraction 100 ≥ 719 := by
    unfold bass_growth games_attraction
    rw [if_pos (by norm_num : (100:ℕ) < 50000), max_eq_right (by norm_num)]
    norm_num
  have hs : ((get_seasonal_multiplier 1 : ℚ) : ℝ) = 1.15 := by
    norm_num [get_seasonal_multiplier]
  unfold calculate_daily_user_growth
  rw [network_effect_10000, hs,
    min_eq_right (by push_cast; nlinarith [hb])]
  norm_num

/-- C8 counterexample: the claim asserts that the user growth delta on a
weekend weekday is 1.25 times the delta on a midweek weekday with all
other inputs and draws fixed.  At the snapshot of 10000 users, 100 games,
month 1, jitter draw 1, the delta is 500 on weekday 5 (Saturday) and also
500 on weekday 2 (Wednesday), and 500 is not 1.25 * 500: the growth
computation never consumes the weekday multiplier. -/
theorem c8_counterexample :
    tick_user_delta 10000 100 1 5 1 ≠ 1.25 * tick_user_delta 10000 100 1 2 1 := by
  unfold tick_user_delta
  rw [user_growth_value_10000]
  norm_num

/-- C8 amended: the user growth delta is multiplied by the seasonal
multiplier only; the weekday multiplier (1.25 on weekends, 1.0 midweek)
enters only the activity-rate computation of the tick, so with all other
inputs and random draws held fixed the deltas computed on any two
weekdays are equal — in particular 500 on both Saturday and Wednesday at
the snapshot of 10000 users, 100 games, month 1, jitter draw 1. -/
theorem c8_amended (u g : ℕ) (m w1 w2 : ℤ) (r : ℝ) :
    tick_user_delta u g m w1 r = tick_user_delta u g m w2 r ∧
    get_weekday_multiplier 5 = 1.25 ∧ get_weekday_multiplier 2 = 1 ∧
    tick_user_delta 10000 100 1 5 1 = 500 ∧
    tick_user_delta 10000 100 1 2 1 = 500 := by
  refine ⟨rfl, by norm_num [get_weekday_multiplier],
    by norm_num [get_weekday_multiplier], ?_, ?_⟩
  · unfold tick_user_delta; exact user_growth_value_10000
  · unfold tick_user_delta; exact user_growth_value_10000
